import Mathlib

/-!
Verification of the ShiftSync shift-schedule extraction pipeline.

The core pipeline (OCR adapter, schedule pattern parser, shift classifier,
confidence scorer, calendar serializer) is described by the repository
documentation (README, CLAUDE.md, docs); its Python implementation is not
part of the checked sources, so those components are modelled from the spec,
as marked on each definition. The frontend TypeScript code
(ConfidenceIndicator.tsx, api-client.ts) is embedded directly from source.

Conventions: times of day are minutes since midnight (Nat, 0..1439);
confidence values are rationals; recognized text is a list of lines, each an
actual string paired with an optional engine-reported per-line confidence.
-/

namespace ShiftSync

/-- Shift type categories tidlig/mellom/kveld/natt (early/mid/evening/night). -/
inductive ShiftType where
  | tidlig
  | mellom
  | kveld
  | natt
deriving DecidableEq, Repr

/-- Modelled from the spec: the Shift Classifier contract
classify(start_time) -> shift_type, a pure total function on minute-of-day
values with half-open buckets 06:00-12:00 tidlig, 12:00-16:00 mellom,
16:00-22:00 kveld, and the rest natt. The Python implementation
(bestem_vakttype) is not among the checked sources. -/
def classify (t : Nat) : ShiftType :=
  if 360 ≤ t ∧ t < 720 then .tidlig
  else if 720 ≤ t ∧ t < 960 then .mellom
  else if 960 ≤ t ∧ t < 1320 then .kveld
  else .natt

/-! ### Character and word utilities for the line scanner -/

/-- ASCII lowercasing, used for case-insensitive vocabulary matching. -/
def asciiLower (c : Char) : Char :=
  if 'A' ≤ c ∧ c ≤ 'Z' then Char.ofNat (c.toNat + 32) else c

/-- Decimal digit test. -/
def isDigitChar (c : Char) : Bool := '0' ≤ c && c ≤ '9'

/-- Numeric value of a decimal digit character. -/
def digitVal (c : Char) : Nat := c.toNat - 48

/-- Split a character list on a separator character (structural recursion,
so that concrete scans reduce inside the kernel). -/
def splitOnChar (sep : Char) : List Char → List (List Char)
  | [] => [[]]
  | c :: cs =>
    let rest := splitOnChar sep cs
    if c = sep then [] :: rest
    else
      match rest with
      | [] => [[c]]
      | w :: ws => (c :: w) :: ws

/-- The nonempty whitespace-separated words of a line. -/
def wordsOf (cs : List Char) : List (List Char) :=
  (splitOnChar ' ' cs).filter (· ≠ [])

/-- Value of a digit run, most significant digit first. -/
def digitsToNat (cs : List Char) : Nat :=
  cs.foldl (fun a c => 10 * a + digitVal c) 0

/-- All characters are decimal digits. -/
def allDigits (cs : List Char) : Bool := cs.all isDigitChar

/-- The twelve Norwegian month names recognized in month/year header lines. -/
def monthNames : List String :=
  ["januar", "februar", "mars", "april", "mai", "juni",
   "juli", "august", "september", "oktober", "november", "desember"]

/-- The seven Norwegian weekday names recognized in shift time lines. -/
def weekdayNames : List String :=
  ["mandag", "tirsdag", "onsdag", "torsdag", "fredag", "lørdag", "søndag"]

/-- Position of a word in a name table, counting from the given index. -/
def nameIndexFrom : List String → Nat → List Char → Option Nat
  | [], _, _ => none
  | n :: ns, i, w => if w = n.data then some i else nameIndexFrom ns (i + 1) w

/-- One-based month number of a lowercased month-name word, if any. -/
def monthIndex (w : List Char) : Option Nat := nameIndexFrom monthNames 1 w

/-- Whether a lowercased word is a Norwegian weekday name. -/
def isWeekday (w : List Char) : Bool := weekdayNames.any (fun n => w = n.data)

/-- Parse a 4-digit year word. -/
def parseYearChars (cs : List Char) : Option Nat :=
  if allDigits cs ∧ cs.length = 4 then some (digitsToNat cs) else none

/-- Parse an HH:MM word into minutes since midnight. -/
def parseTimeChars (cs : List Char) : Option Nat :=
  match splitOnChar ':' cs with
  | [h, m] =>
    if allDigits h ∧ allDigits m ∧ 1 ≤ h.length ∧ h.length ≤ 2 ∧ m.length = 2 ∧
        digitsToNat h < 24 ∧ digitsToNat m < 60 then
      some (60 * digitsToNat h + digitsToNat m)
    else none
  | _ => none

/-- What a single recognized line contributes to the scan: a month/year
header, a weekday plus time range, a day number (with a flag recording
whether digit-split whitespace had to be collapsed), a blank line, or
anything else. -/
inductive LineKind where
  | header (month year : Nat)
  | time (startMin endMin : Nat)
  | day (d : Nat) (collapsed : Bool)
  | blank
  | other
deriving DecidableEq, Repr

/-- Match a month-name + 4-digit-year header from the words of a line. -/
def matchHeader (ws : List (List Char)) : Option (Nat × Nat) :=
  match ws with
  | [w, y] =>
    match monthIndex w, parseYearChars y with
    | some m, some yr => some (m, yr)
    | _, _ => none
  | _ => none

/-- Match a weekday name followed by HH:MM - HH:MM (whitespace around the
dash is permissive: the remaining words are joined before splitting on
the dash). -/
def matchTime (ws : List (List Char)) : Option (Nat × Nat) :=
  match ws with
  | [] => none
  | w :: rest =>
    if isWeekday w then
      match splitOnChar '-' rest.flatten with
      | [a, b] =>
        match parseTimeChars a, parseTimeChars b with
        | some s, some e => some (s, e)
        | _, _ => none
      | _ => none
    else none

/-- Match a day-number line. Internal whitespace between digits is collapsed
(digit-split OCR artifacts such as a recognized 2 3 standing for 23) before
the 1..31 range check; the flag records whether a collapse happened. -/
def matchDay (ws : List (List Char)) : Option (Nat × Bool) :=
  let ds := ws.flatten
  if allDigits ds ∧ 1 ≤ ds.length ∧ ds.length ≤ 2 ∧
      1 ≤ digitsToNat ds ∧ digitsToNat ds ≤ 31 then
    some (digitsToNat ds, decide (2 ≤ ws.length))
  else none

/-- Modelled from the spec: classification of one recognized line, trying the
month/year header pattern, then the weekday+time-range pattern, then the
day-number pattern, case-insensitively. -/
def classifyLine (s : String) : LineKind :=
  let ws := wordsOf (s.data.map asciiLower)
  if ws = [] then .blank
  else
    match matchHeader ws with
    | some (m, y) => .header m y
    | none =>
      match matchTime ws with
      | some (a, b) => .time a b
      | none =>
        match matchDay ws with
        | some (d, c) => .day d c
        | none => .other

/-! ### The schedule pattern parser (line-oriented state machine) -/

/-- Leap year rule, used to validate day numbers against the active month. -/
def isLeap (y : Nat) : Bool := (y % 4 == 0 && y % 100 != 0) || y % 400 == 0

/-- Number of days in a month of a year. -/
def daysInMonth (month year : Nat) : Nat :=
  if month = 2 then (if isLeap year then 29 else 28)
  else if month = 4 ∨ month = 6 ∨ month = 9 ∨ month = 11 then 30
  else 31

/-- The active (month, year) context established by the most recent
month/year header line. -/
structure MonthContext where
  month : Nat
  year : Nat
deriving DecidableEq, Repr

/-- A pending (start, end) time pair waiting for its day-number line within
the lookahead window; remaining counts how many further non-empty lines may
still be inspected. -/
structure Pending where
  start_time : Nat
  end_time : Nat
  conf : Option ℚ
  remaining : Nat
deriving DecidableEq, Repr

/-- One tentative shift produced by the parser: full date from day number
plus active MonthContext, the time pair, the per-line source confidence if
present, and the parse-quality signals (was a line skipped during lookahead;
was digit-split collapse needed) handed to the confidence scorer. -/
structure ShiftCandidate where
  year : Nat
  month : Nat
  day : Nat
  start_time : Nat
  end_time : Nat
  source_confidence : Option ℚ
  skipped : Bool
  collapsed : Bool
deriving DecidableEq, Repr

/-- Parser output: candidates in first-appearance order plus warnings. -/
structure ParseOutput where
  shifts : List ShiftCandidate
  warnings : List String
deriving DecidableEq, Repr

/-- Scanner state threaded through the single left-to-right pass. -/
structure ParseState where
  ctx : Option MonthContext
  pending : Option Pending
  shifts : List ShiftCandidate
  warnings : List String

/-- Warning emitted when a time pair finds no day number in the window. -/
def warnNoDay : String := "vakt funnet uten datonummer"

/-- Warning emitted when a day number arrives with no active MonthContext. -/
def warnNoContext : String := "vakt uten aktiv månedskontekst"

/-- Warning emitted when the day number is out of range for the month. -/
def warnInvalidDay : String := "ugyldig dagnummer for måneden"

/-- Warning emitted when start and end time are identical. -/
def warnEqualTimes : String := "start og slutt er like"

/-- A non-matching non-empty line consumes one unit of the pending lookahead
window; when the window is exhausted the pending pair is dropped with a
warning. -/
def consumePending (st : ParseState) : ParseState :=
  match st.pending with
  | none => st
  | some p =>
    if p.remaining ≤ 1 then
      { st with pending := none, warnings := st.warnings ++ [warnNoDay] }
    else
      { st with pending := some { p with remaining := p.remaining - 1 } }

/-- Transition of the scanner on one classified line. -/
def stepKind (st : ParseState) (k : LineKind) (conf : Option ℚ) : ParseState :=
  match k with
  | .blank => st
  | .header m y =>
    let st1 := consumePending st
    { st1 with ctx := some ⟨m, y⟩ }
  | .time s e =>
    let st1 :=
      match st.pending with
      | some _ => { st with pending := none, warnings := st.warnings ++ [warnNoDay] }
      | none => st
    if s = e then { st1 with warnings := st1.warnings ++ [warnEqualTimes] }
    else { st1 with pending := some ⟨s, e, conf, 2⟩ }
  | .day d collapsed =>
    match st.pending with
    | none => st
    | some p =>
      let st1 := { st with pending := none }
      match st.ctx with
      | none => { st1 with warnings := st1.warnings ++ [warnNoContext] }
      | some c =>
        if 1 ≤ d ∧ d ≤ daysInMonth c.month c.year then
          { st1 with shifts := st1.shifts ++
              [⟨c.year, c.month, d, p.start_time, p.end_time, p.conf,
                decide (p.remaining ≤ 1), collapsed⟩] }
        else { st1 with warnings := st1.warnings ++ [warnInvalidDay] }
  | .other => consumePending st

/-- Transition of the scanner on one raw recognized line. -/
def step (st : ParseState) (line : String) (conf : Option ℚ) : ParseState :=
  stepKind st (classifyLine line) conf

/-- Modelled from the spec: the Schedule Pattern Parser contract
parse(text) -> candidates plus warnings, a single left-to-right scan with
MonthContext and pending-time-pair state; a pending pair still open at end
of input is dropped with a warning. The Python implementation
(ekstraher_dato_og_tid) is not among the checked sources. -/
def parse (text : List (String × Option ℚ)) : ParseOutput :=
  let st := text.foldl (fun st lc => step st lc.1 lc.2) ⟨none, none, [], []⟩
  match st.pending with
  | some _ => ⟨st.shifts, st.warnings ++ [warnNoDay]⟩
  | none => ⟨st.shifts, st.warnings⟩

/-! ### The confidence scorer -/

/-- Clamp a rational to the unit interval. -/
def clamp01 (x : ℚ) : ℚ := max 0 (min 1 x)

/-- Modelled from the spec: the OCR signal is the engine-reported per-line
confidence if present, else a neutral 0.7. -/
def ocrSignal (c : Option ℚ) : ℚ := c.getD (7 / 10)

/-- Modelled from the spec: the pattern-fit signal is 1.0 for an immediately
following day-number line, 0.8 if one line was skipped during lookahead, and
lower again (factor 0.9) if digit-artifact collapse was needed. -/
def patternSignal (skipped collapsed : Bool) : ℚ :=
  (if skipped then 4 / 5 else 1) * (if collapsed then 9 / 10 else 1)

/-- Modelled from the spec: the plausibility signal is 1.0 when the date is
within a window of about 2 months in the past to 13 months in the future of
now (given as a (year, month) pair), else 0.5. -/
def plausSignal (now : Nat × Nat) (year month : Nat) : ℚ :=
  let d : Int := ((year : Int) * 12 + month) - ((now.1 : Int) * 12 + now.2)
  if -2 ≤ d ∧ d ≤ 13 then 1 else 1 / 2

/-- Modelled from the spec: the Confidence Scorer combines the OCR,
pattern-fit and plausibility signals as a weighted product, clamped to the
unit interval. -/
def score (ocr pattern plaus : ℚ) : ℚ := clamp01 (ocr * pattern * plaus)

/-! ### Records, results and the pipeline -/

/-- The finalized, externally visible shift unit. -/
structure ShiftRecord where
  year : Nat
  month : Nat
  day : Nat
  start_time : Nat
  end_time : Nat
  shift_type : ShiftType
  confidence : ℚ
deriving DecidableEq, Repr

/-- The return value of one pipeline invocation. -/
structure ProcessingResult where
  shifts : List ShiftRecord
  warnings : List String
  overall_confidence : ℚ
deriving DecidableEq, Repr

/-- Mean of the per-shift confidences, 0 for the empty list. -/
def meanConfidence (shifts : List ShiftRecord) : ℚ :=
  if shifts = [] then 0
  else (shifts.map ShiftRecord.confidence).sum / shifts.length

/-- Attach classifier output and scorer output to a candidate. -/
def finalizeCandidate (now : Nat × Nat) (c : ShiftCandidate) : ShiftRecord :=
  ⟨c.year, c.month, c.day, c.start_time, c.end_time, classify c.start_time,
    score (ocrSignal c.source_confidence) (patternSignal c.skipped c.collapsed)
      (plausSignal now c.year c.month)⟩

/-- Modelled from the spec: one pipeline invocation on recognized text.
Parse, then classify and score each candidate; overall confidence is the
mean of the per-shift confidences. An empty candidate list still yields a
ProcessingResult. -/
def pipeline (text : List (String × Option ℚ)) (now : Nat × Nat) :
    ProcessingResult :=
  ⟨(parse text).shifts.map (finalizeCandidate now),
   (parse text).warnings,
   meanConfidence ((parse text).shifts.map (finalizeCandidate now))⟩

/-- Modelled from the spec: the only exceptions of the core are raised by
the OCR Engine Adapter, for infrastructural failures; the parser itself has
no error channel (it is total, returning warnings instead). -/
inductive AdapterError where
  | engineUnavailable
  | unsupportedImage
deriving DecidableEq, Repr

/-! ### The calendar serializer -/

/-- A calendar date. -/
structure CalDate where
  year : Nat
  month : Nat
  day : Nat
deriving DecidableEq, Repr

/-- The calendar day after a date. -/
def nextDay (d : CalDate) : CalDate :=
  if d.day < daysInMonth d.month d.year then ⟨d.year, d.month, d.day + 1⟩
  else if d.month < 12 then ⟨d.year, d.month + 1, 1⟩
  else ⟨d.year + 1, 1, 1⟩

/-- Norwegian display name of a shift type. -/
def typeName : ShiftType → String
  | .tidlig => "tidlig"
  | .mellom => "mellom"
  | .kveld => "kveld"
  | .natt => "natt"

/-- One emitted calendar event. -/
structure CalEvent where
  summary : String
  startDate : CalDate
  startMin : Nat
  endDate : CalDate
  endMin : Nat
deriving DecidableEq, Repr

/-- Modelled from the spec: build one calendar event from a ShiftRecord.
Summary is the fixed owner-jobber-type template; start is the record date
with start_time; the end is end_time on the same date, rolled to the next
calendar day when end_time is numerically earlier than start_time. The
Python implementation (lag_kalenderhendelse) is not among the checked
sources. -/
def lag_kalenderhendelse (r : ShiftRecord) (owner : String) : CalEvent :=
  let d : CalDate := ⟨r.year, r.month, r.day⟩
  { summary := owner ++ " jobber " ++ typeName r.shift_type
    startDate := d
    startMin := r.start_time
    endDate := if r.end_time < r.start_time then nextDay d else d
    endMin := r.end_time }

/-- Zero-padded two-digit rendering. -/
def pad2 (n : Nat) : String := if n < 10 then "0" ++ toString n else toString n

/-- Zero-padded four-digit rendering. -/
def pad4 (n : Nat) : String :=
  if n < 10 then "000" ++ toString n
  else if n < 100 then "00" ++ toString n
  else if n < 1000 then "0" ++ toString n
  else toString n

/-- Render a local date-time stamp. -/
def fmtStamp (d : CalDate) (t : Nat) : String :=
  pad4 d.year ++ pad2 d.month ++ pad2 d.day ++ "T" ++
    pad2 (t / 60) ++ pad2 (t % 60) ++ "00"

/-- Render one event block. -/
def renderEvent (e : CalEvent) : String :=
  "BEGIN:VEVENT\nSUMMARY:" ++ e.summary ++
    "\nDTSTART:" ++ fmtStamp e.startDate e.startMin ++
    "\nDTEND:" ++ fmtStamp e.endDate e.endMin ++
    "\nEND:VEVENT\n"

/-- Modelled from the spec: serialize(shifts, owner) -> calendar document.
The wall-clock time of the invocation is passed as a parameter but the
document embeds no run-varying timestamps, per the determinism requirement.
The Python implementation is not among the checked sources. -/
def serialize (shifts : List ShiftRecord) (owner : String) (_now : Nat) :
    String :=
  "BEGIN:VCALENDAR\nVERSION:2.0\n" ++
    String.join (shifts.map (fun r => renderEvent (lag_kalenderhendelse r owner))) ++
    "END:VCALENDAR\n"

/-! ### Frontend code embedded from source -/

/-- Display label of the frontend confidence indicator. -/
inductive ConfLabel where
  | lav
  | moderat
  | hoy
deriving DecidableEq, Repr

/-- Embedded from src/frontend/components/ConfidenceIndicator.tsx: the label
defaults to hoy, becomes lav when the score is strictly below 0.6 and
moderat when it is at least 0.6 but strictly below 0.8. -/
def confidenceLabel (score : ℚ) : ConfLabel :=
  if score < 3 / 5 then .lav
  else if score < 4 / 5 then .moderat
  else .hoy

/-- Embedded from src/frontend/lib/api-client.ts retryCondition: retry when
the response status is 429, or when a status is present and at least 500;
an absent status is not retried by this predicate. -/
def retryCondition (status : Option Nat) : Bool :=
  match status with
  | none => false
  | some s => s == 429 || decide (500 ≤ s)

/-- Embedded from src/frontend/lib/api-client.ts: the axios-retry
configuration requests 3 retries. -/
def retryLimit : Nat := 3

end ShiftSync

namespace ShiftSync

/-- Claim C1: for every minute-of-day value, classify returns exactly one of
the four categories according to the half-open buckets 06:00-12:00 tidlig,
12:00-16:00 mellom, 16:00-22:00 kveld and 22:00-06:00 natt; the four
intervals partition the 24-hour range with inclusive-lower, exclusive-upper
boundaries. -/
theorem classify_partition (t : Nat) (ht : t < 1440) :
    (classify t = .tidlig ↔ 360 ≤ t ∧ t < 720) ∧
    (classify t = .mellom ↔ 720 ≤ t ∧ t < 960) ∧
    (classify t = .kveld ↔ 960 ≤ t ∧ t < 1320) ∧
    (classify t = .natt ↔ (1320 ≤ t ∨ t < 360)) := by
  unfold classify
  split_ifs with h1 h2 h3 <;>
    refine ⟨?_, ?_, ?_, ?_⟩ <;> constructor <;> intro h <;>
    first | rfl | omega | simp at h

/-- Witness for C1 at the 12:00 boundary, which lies in mellom. -/
theorem classify_partition_witness :
    (classify 720 = .tidlig ↔ 360 ≤ 720 ∧ 720 < 720) ∧
    (classify 720 = .mellom ↔ 720 ≤ 720 ∧ 720 < 960) ∧
    (classify 720 = .kveld ↔ 960 ≤ 720 ∧ 720 < 1320) ∧
    (classify 720 = .natt ↔ (1320 ≤ 720 ∨ 720 < 360)) :=
  classify_partition 720 (by decide)

/-- Claim C2: for every valid (month, year, day) combination, a month/year
header line followed by a weekday plus time-range line immediately followed
by that day-number line yields exactly one ShiftCandidate carrying the
MonthContext date and the times of the time line. -/
theorem parse_triple (l1 l2 l3 : String) (c1 c2 c3 : Option ℚ)
    (m y s e d : Nat)
    (h1 : classifyLine l1 = .header m y)
    (h2 : classifyLine l2 = .time s e)
    (h3 : classifyLine l3 = .day d false)
    (hse : s ≠ e)
    (hd1 : 1 ≤ d) (hd2 : d ≤ daysInMonth m y) :
    parse [(l1, c1), (l2, c2), (l3, c3)] =
      ⟨[⟨y, m, d, s, e, c2, false, false⟩], []⟩ := by
  simp [parse, step, stepKind, consumePending, h1, h2, h3, hse, hd1, hd2]

/-- Witness for C2, Scenario A: the three-line november text yields exactly
one shift dated 18.11.2025, 07:00-15:00, whose start time classifies as
tidlig. -/
theorem parse_triple_witness :
    parse [("november 2025", none), ("mandag 07:00 - 15:00", none), ("18", none)] =
      ⟨[⟨2025, 11, 18, 420, 900, none, false, false⟩], []⟩ ∧
    classify 420 = .tidlig :=
  ⟨parse_triple "november 2025" "mandag 07:00 - 15:00" "18" none none none
      11 2025 420 900 18 (by decide) (by decide) (by decide) (by decide)
      (by decide) (by decide),
   by decide⟩

/-- Claim C3: every serialized event starts at the record date with the
start time and ends at the end time, on the next calendar day exactly when
the end time is numerically earlier than the start time; the summary is the
fixed owner-jobber-type template. -/
theorem serializer_event (r : ShiftRecord) (owner : String) :
    (lag_kalenderhendelse r owner).summary =
      owner ++ " jobber " ++ typeName r.shift_type ∧
    (lag_kalenderhendelse r owner).startDate = ⟨r.year, r.month, r.day⟩ ∧
    (lag_kalenderhendelse r owner).startMin = r.start_time ∧
    (lag_kalenderhendelse r owner).endMin = r.end_time ∧
    (r.end_time < r.start_time →
      (lag_kalenderhendelse r owner).endDate = nextDay ⟨r.year, r.month, r.day⟩) ∧
    (r.start_time ≤ r.end_time →
      (lag_kalenderhendelse r owner).endDate = ⟨r.year, r.month, r.day⟩) := by
  unfold lag_kalenderhendelse
  refine ⟨rfl, rfl, rfl, rfl, ?_, ?_⟩ <;> intro h <;> simp only [] <;>
    first
      | rw [if_pos h]
      | rw [if_neg (by omega)]

/-- Witness for C3: an overnight 22:00-07:00 shift ends on the next calendar
day, a daytime 07:00-15:00 shift ends on the same day. -/
theorem serializer_event_witness :
    (lag_kalenderhendelse ⟨2025, 11, 18, 1320, 420, .natt, 1⟩ "Cathrine").endDate =
      nextDay ⟨2025, 11, 18⟩ ∧
    (lag_kalenderhendelse ⟨2025, 11, 18, 420, 900, .tidlig, 1⟩ "Cathrine").endDate =
      ⟨2025, 11, 18⟩ :=
  ⟨(serializer_event ⟨2025, 11, 18, 1320, 420, .natt, 1⟩ "Cathrine").2.2.2.2.1
      (by decide),
   (serializer_event ⟨2025, 11, 18, 420, 900, .tidlig, 1⟩ "Cathrine").2.2.2.2.2
      (by decide)⟩

/-- Claim C4: for every pipeline invocation, the overall confidence is the
arithmetic mean of the per-shift confidences, and exactly 0 when the shifts
sequence is empty. -/
theorem overall_confidence_mean (text : List (String × Option ℚ))
    (now : Nat × Nat) :
    ((pipeline text now).shifts = [] →
      (pipeline text now).overall_confidence = 0) ∧
    ((pipeline text now).shifts ≠ [] →
      (pipeline text now).overall_confidence =
        ((pipeline text now).shifts.map ShiftRecord.confidence).sum /
          (pipeline text now).shifts.length) := by
  constructor <;> intro h <;>
    simp only [pipeline, meanConfidence] at h ⊢ <;>
    simp [h]

/-- Witness for C4: the empty text yields a valid result with an empty
shifts sequence and overall confidence 0. -/
theorem overall_confidence_mean_witness :
    (pipeline [] (2025, 11)).overall_confidence = 0 ∧
    (pipeline [] (2025, 11)).shifts = [] :=
  ⟨(overall_confidence_mean [] (2025, 11)).1 rfl, rfl⟩

/-- Counterexample for C5 as frozen: a digit-split day line that forms a
plausible day number is normalized into a candidate, not recorded as a
warning with the candidate omitted, contradicting the claim that each
listed anomaly (including digit-split artifacts) is warned and omitted. -/
theorem digit_split_line_yields_candidate :
    parse [("oktober 2025", none), ("mandag 07:00 - 15:00", none),
        ("2 3", none)] =
      ⟨[⟨2025, 10, 23, 420, 900, none, false, true⟩], []⟩ := by decide

/-- Claim C5 (amended): the parse stage is total and never fails on
malformed content; an undated shift, an out-of-range day number, a missing
day-number line and an unrecoverable digit artifact each produce a warning
with the offending candidate omitted, and a ProcessingResult is still
returned, its warnings being exactly the parse warnings. Recoverable
digit-split lines are instead normalized into candidates. -/
theorem parse_anomalies_warn :
    parse [("mandag 07:00 - 15:00", none), ("18", none)] =
      ⟨[], [warnNoContext]⟩ ∧
    parse [("april 2025", none), ("mandag 07:00 - 15:00", none), ("31", none)] =
      ⟨[], [warnInvalidDay]⟩ ∧
    parse [("november 2025", none), ("mandag 07:00 - 15:00", none)] =
      ⟨[], [warnNoDay]⟩ ∧
    parse [("oktober 2025", none), ("mandag 07:00 - 15:00", none),
        ("1 2 3", none)] =
      ⟨[], [warnNoDay]⟩ ∧
    pipeline [("november 2025", none), ("mandag 07:00 - 15:00", none)] (2025, 11) =
      ⟨[], [warnNoDay], 0⟩ ∧
    (∀ (text : List (String × Option ℚ)) (now : Nat × Nat),
      (pipeline text now).warnings = (parse text).warnings) :=
  ⟨by decide, by decide, by decide, by decide, by decide, fun _ _ => rfl⟩

/-- Claim C6: serializing the same shift list with the same owner name is
byte-identical across invocations; the document embeds nothing that varies
with the invocation time. -/
theorem serialize_deterministic (shifts : List ShiftRecord) (owner : String)
    (t1 t2 : Nat) :
    serialize shifts owner t1 = serialize shifts owner t2 := rfl

/-- Counterexample for C7 as frozen: with the OCR signal 0 (a value the
engine may report), degrading the pattern-fit signal from 1.0 to 0.8 leaves
the score unchanged at 0, so the decrease is not strict for every
candidate. -/
theorem score_no_strict_decrease_at_zero_ocr :
    score 0 (4 / 5) 1 = score 0 1 1 := by
  norm_num [score, clamp01]

/-- Claim C7 (amended): holding the OCR and plausibility signals fixed,
degrading the pattern-fit signal from 1.0 to 0.8 strictly decreases the
score whenever the OCR signal is positive (the plausibility signal is
always 1 or 0.5); at OCR signal 0 the weighted product is 0 either way. -/
theorem score_pattern_monotone (ocr plaus : ℚ) (h0 : 0 < ocr) (h1 : ocr ≤ 1)
    (hp : plaus = 1 / 2 ∨ plaus = 1) :
    score ocr (4 / 5) plaus < score ocr 1 plaus := by
  have hpl : 0 < plaus ∧ plaus ≤ 1 := by
    rcases hp with hp | hp <;> subst hp <;> norm_num
  unfold score clamp01
  have hb1 : ocr * (4 / 5) * plaus ≤ 1 := by nlinarith [hpl.1, hpl.2]
  have hb2 : ocr * 1 * plaus ≤ 1 := by nlinarith [hpl.1, hpl.2]
  have hn1 : (0 : ℚ) ≤ ocr * (4 / 5) * plaus := by nlinarith [hpl.1]
  have hn2 : (0 : ℚ) ≤ ocr * 1 * plaus := by nlinarith [hpl.1]
  rw [min_eq_right hb1, min_eq_right hb2, max_eq_right hn1, max_eq_right hn2]
  nlinarith [hpl.1]

/-- Witness for C7 at the neutral OCR signal 0.7 and plausibility 1. -/
theorem score_pattern_monotone_witness :
    score (7 / 10) (4 / 5) 1 < score (7 / 10) 1 1 :=
  score_pattern_monotone (7 / 10) 1 (by norm_num) (by norm_num) (Or.inr rfl)

/-- Claim C8: a day-number line of two single digits separated by internal
whitespace that form a plausible day number is collapsed before the 1..31
range check, classifies as that single day number, and in context produces
exactly one shift candidate rather than two single-digit ones. -/
theorem digit_collapse (d1 d2 : Nat) (h1 : 1 ≤ d1) (h2 : d1 ≤ 9) (h3 : d2 ≤ 9)
    (h4 : 10 * d1 + d2 ≤ 31) :
    classifyLine (String.mk [Char.ofNat (48 + d1), ' ', Char.ofNat (48 + d2)]) =
      .day (10 * d1 + d2) true ∧
    parse [("oktober 2025", none), ("mandag 07:00 - 15:00", none),
        (String.mk [Char.ofNat (48 + d1), ' ', Char.ofNat (48 + d2)], none)] =
      ⟨[⟨2025, 10, 10 * d1 + d2, 420, 900, none, false, true⟩], []⟩ := by
  have h5 : d1 ≤ 3 := by omega
  clear h2
  interval_cases d1 <;> interval_cases d2 <;>
    first | omega | exact ⟨by decide, by decide⟩

/-- Witness for C8 at the digits 2 and 3: the line collapses to day 23 and
yields one candidate. -/
theorem digit_collapse_witness :
    classifyLine (String.mk [Char.ofNat 50, ' ', Char.ofNat 51]) =
      .day 23 true ∧
    parse [("oktober 2025", none), ("mandag 07:00 - 15:00", none),
        (String.mk [Char.ofNat 50, ' ', Char.ofNat 51], none)] =
      ⟨[⟨2025, 10, 23, 420, 900, none, false, true⟩], []⟩ :=
  digit_collapse 2 3 (by decide) (by decide) (by decide) (by decide)

/-- Claim C9: a confidence score in the unit interval is surfaced as low
confidence exactly when it is strictly below 0.6. -/
theorem low_confidence_iff (s : ℚ) (h0 : 0 ≤ s) (h1 : s ≤ 1) :
    confidenceLabel s = .lav ↔ s < 3 / 5 := by
  unfold confidenceLabel
  split_ifs with h h' <;> simp_all

/-- Witness for C9 at the boundary score 0.6, which is not low. -/
theorem low_confidence_iff_witness :
    (confidenceLabel (3 / 5) = .lav ↔ (3 / 5 : ℚ) < 3 / 5) :=
  low_confidence_iff (3 / 5) (by norm_num) (by norm_num)

/-- Claim C10: the API client retries a failed response exactly when its
status is 429 or at least 500, up to the configured 3 retries; absent
statuses and other client-error statuses such as 400, 402 and 413 are never
retried. -/
theorem retry_on_429_or_5xx :
    (∀ s : Nat, retryCondition (some s) = true ↔ (s = 429 ∨ 500 ≤ s)) ∧
    retryCondition none = false ∧
    retryCondition (some 400) = false ∧
    retryCondition (some 402) = false ∧
    retryCondition (some 413) = false ∧
    retryLimit = 3 := by
  refine ⟨?_, rfl, rfl, rfl, rfl, rfl⟩
  intro s
  simp [retryCondition]

end ShiftSync
